import Mathlib

/-!
Verification of the single-route Flask application in `src/app.py`.

The whole program is:

  from flask import Flask
  app = Flask(__name__)

  @app.route("/")
  def index():
      return "5 + 3 = 8"

  if __name__ == "__main__":
      app.run(host="0.0.0.0", port=8000)

We give a shallow embedding: HTTP requests and responses as plain
structures, the handler `index` as the constant it returns, the
application's dispatch (route registration plus the framework's default
behaviour for matched and unmatched requests) as a total function
`appHandle`, and module initialisation / the `__main__` guard as
explicit effect lists.
-/

/-- HTTP methods relevant to the app's single route. -/
inductive Method where
  | GET
  | HEAD
  | OPTIONS
  | POST
  | PUT
  | DELETE
  | PATCH
  deriving DecidableEq, Repr

/-- An incoming HTTP request: method, path, headers and body. -/
structure Request where
  method : Method
  path : String
  headers : List (String × String)
  body : String
  deriving DecidableEq, Repr

/-- An HTTP response: status code, content type and body. -/
structure Response where
  status : Nat
  contentType : String
  body : String
  deriving DecidableEq, Repr

/-- Flask's default content type for a handler returning a `str`. -/
def flaskDefaultContentType : String := "text/html; charset=utf-8"

/-- Flask's default body for an unmatched route (404 page). -/
def flaskNotFoundBody : String :=
  "<!doctype html>\n<html lang=en>\n<title>404 Not Found</title>\n<h1>Not Found</h1>\n<p>The requested URL was not found on the server. If you entered the URL manually please check your spelling and try again.</p>\n"

/-- Flask's default body for a matched route with a disallowed method (405 page). -/
def flaskMethodNotAllowedBody : String :=
  "<!doctype html>\n<html lang=en>\n<title>405 Method Not Allowed</title>\n<h1>Method Not Allowed</h1>\n<p>The method is not allowed for the requested URL.</p>\n"

/-- The handler `index` from `src/app.py`: it returns the literal string. -/
def index : String := "5 + 3 = 8"

/-- The methods a Flask route registered with no explicit `methods` argument
answers: `GET`, with `HEAD` and `OPTIONS` added automatically by the
framework. -/
def defaultRouteMethods : List Method := [Method.GET, Method.HEAD, Method.OPTIONS]

/-- The files of the application's static folder, as filename/contents
pairs. `Flask(__name__)` serves the `static/` directory next to the
module; this repository contains no such directory, so the table is
empty and every static-file lookup misses. -/
def staticFiles : List (String × String) := []

/-- Does a path match the route `/static/<path:filename>` that
`Flask(__name__)` registers implicitly? Werkzeug's `path` converter
requires a nonempty filename whose first character is not `/`. -/
def staticRouteMatch (p : String) : Bool :=
  match p.data with
  | '/' :: 's' :: 't' :: 'a' :: 't' :: 'i' :: 'c' :: '/' :: c :: _ => c != '/'
  | _ => false

/-- The content type Flask guesses from a served static file's name
(unreachable in this repository, where `staticFiles` is empty). -/
def guessedMimetype (filename : String) : String :=
  if filename.endsWith ".html" then "text/html; charset=utf-8"
  else if filename.endsWith ".css" then "text/css; charset=utf-8"
  else if filename.endsWith ".js" then "text/javascript; charset=utf-8"
  else if filename.endsWith ".txt" then "text/plain; charset=utf-8"
  else "application/octet-stream"

/-- The application's dispatch. The app registers the single route
`"/" ↦ index` with default methods; `Flask(__name__)` also registers
`/static/<filename>` implicitly, serving `staticFiles`. Everything else
is the framework's default behaviour: `HEAD` on the matched root returns
200 with an empty body, automatic `OPTIONS` on any registered route
returns 200 with an empty body, a disallowed method yields 405, and an
unmatched path yields 404. -/
def appHandle (req : Request) : Response :=
  if req.path = "/" then
    if req.method = Method.GET then
      { status := 200, contentType := flaskDefaultContentType, body := index }
    else if req.method = Method.HEAD then
      { status := 200, contentType := flaskDefaultContentType, body := "" }
    else if req.method = Method.OPTIONS then
      { status := 200, contentType := flaskDefaultContentType, body := "" }
    else
      { status := 405, contentType := flaskDefaultContentType,
        body := flaskMethodNotAllowedBody }
  else if staticRouteMatch req.path then
    if req.method = Method.OPTIONS then
      { status := 200, contentType := flaskDefaultContentType, body := "" }
    else if req.method = Method.GET ∨ req.method = Method.HEAD then
      match staticFiles.lookup (req.path.drop 8) with
      | some contents =>
          { status := 200, contentType := guessedMimetype (req.path.drop 8),
            body := if req.method = Method.HEAD then "" else contents }
      | none =>
          { status := 404, contentType := flaskDefaultContentType,
            body := flaskNotFoundBody }
    else
      { status := 405, contentType := flaskDefaultContentType,
        body := flaskMethodNotAllowedBody }
  else
    { status := 404, contentType := flaskDefaultContentType,
      body := flaskNotFoundBody }

/-- Observable program state around a handler call. The app has no module
globals of its own besides the route table, so that is the whole state. -/
structure AppState where
  routes : List (String × List Method)
  deriving DecidableEq, Repr

/-- `index` with the program state passed explicitly: the body of `index`
is a single `return` of a literal, so it reads and writes nothing. -/
def indexSt (s : AppState) : String × AppState := (index, s)

/-- The effects performed when the module `src/app.py` is executed. -/
inductive InitEffect where
  | createApp
  | registerRoute (path : String)
  | startServer (host : String) (port : Nat)
  deriving DecidableEq, Repr

/-- Executing the module: construct the Flask app, register the single
route, and — only when run as the main entry point — call `app.run`. -/
def moduleInit (isMain : Bool) : List InitEffect :=
  [InitEffect.createApp, InitEffect.registerRoute "/"] ++
    (if isMain then [InitEffect.startServer "0.0.0.0" 8000] else [])

/-- The host/port binding of the development server. -/
structure ServerConfig where
  host : String
  port : Nat
  deriving DecidableEq, Repr

/-- The `__main__` guard: when the module is the main entry point,
`app.run(host="0.0.0.0", port=8000)` starts a server with that binding
that dispatches requests through `appHandle`; on a plain import no
server is started. -/
def runIfMain (isMain : Bool) : Option (ServerConfig × (Request → Response)) :=
  if isMain then some ({ host := "0.0.0.0", port := 8000 }, appHandle) else none

/-- Modelled from the spec, for the refinement claim C8 only: a handler
that actually computes the sum, returning the concatenation of
`"5 + 3 = "` with the decimal representation of `5 + 3`. -/
def indexComputed : String := "5 + 3 = " ++ toString (5 + 3 : Nat)

/-- Dispatch with the computing handler in place of the hardcoded one. -/
def appHandleComputed (req : Request) : Response :=
  if req.path = "/" then
    if req.method = Method.GET then
      { status := 200, contentType := flaskDefaultContentType, body := indexComputed }
    else if req.method = Method.HEAD then
      { status := 200, contentType := flaskDefaultContentType, body := "" }
    else if req.method = Method.OPTIONS then
      { status := 200, contentType := flaskDefaultContentType, body := "" }
    else
      { status := 405, contentType := flaskDefaultContentType,
        body := flaskMethodNotAllowedBody }
  else if staticRouteMatch req.path then
    if req.method = Method.OPTIONS then
      { status := 200, contentType := flaskDefaultContentType, body := "" }
    else if req.method = Method.GET ∨ req.method = Method.HEAD then
      match staticFiles.lookup (req.path.drop 8) with
      | some contents =>
          { status := 200, contentType := guessedMimetype (req.path.drop 8),
            body := if req.method = Method.HEAD then "" else contents }
      | none =>
          { status := 404, contentType := flaskDefaultContentType,
            body := flaskNotFoundBody }
    else
      { status := 405, contentType := flaskDefaultContentType,
        body := flaskMethodNotAllowedBody }
  else
    { status := 404, contentType := flaskDefaultContentType,
      body := flaskNotFoundBody }

/-- C1: every GET request to path "/" gets status 200 and body exactly
"5 + 3 = 8". -/
theorem get_root_ok (req : Request) (hm : req.method = Method.GET)
    (hp : req.path = "/") :
    (appHandle req).status = 200 ∧ (appHandle req).body = "5 + 3 = 8" := by
  simp [appHandle, hm, hp, index]

/-- Witness for C1: a concrete GET request to "/". -/
theorem get_root_ok_witness :
    (appHandle { method := Method.GET, path := "/", headers := [], body := "" }).status = 200 ∧
    (appHandle { method := Method.GET, path := "/", headers := [], body := "" }).body = "5 + 3 = 8" :=
  get_root_ok { method := Method.GET, path := "/", headers := [], body := "" } rfl rfl

/-- C2: across any two invocations of the handler, in any program states,
the returned bodies are equal and the state is left untouched. -/
theorem index_constant_no_state (s₁ s₂ : AppState) :
    (indexSt s₁).1 = (indexSt s₂).1 ∧ (indexSt s₁).2 = s₁ := by
  simp [indexSt]

/-- C3: a GET request to "/" gets the framework-default content type
(which is what the claim's "text/plain (or the framework default)"
disjunction allows) and body equal to the literal string. -/
theorem get_root_content_type (req : Request) (hm : req.method = Method.GET)
    (hp : req.path = "/") :
    ((appHandle req).contentType = "text/plain" ∨
      (appHandle req).contentType = flaskDefaultContentType) ∧
    (appHandle req).body = "5 + 3 = 8" := by
  refine ⟨Or.inr ?_, ?_⟩ <;> simp [appHandle, hm, hp, index]

/-- Witness for C3: the same concrete GET request to "/". -/
theorem get_root_content_type_witness :
    ((appHandle { method := Method.GET, path := "/", headers := [], body := "" }).contentType = "text/plain" ∨
      (appHandle { method := Method.GET, path := "/", headers := [], body := "" }).contentType = flaskDefaultContentType) ∧
    (appHandle { method := Method.GET, path := "/", headers := [], body := "" }).body = "5 + 3 = 8" :=
  get_root_content_type { method := Method.GET, path := "/", headers := [], body := "" } rfl rfl

/-- C4: run as the main entry point, the bootstrap starts a listener
bound to host "0.0.0.0" on port 8000 whose request handler is the app's
dispatch. -/
theorem main_starts_server :
    runIfMain true = some ({ host := "0.0.0.0", port := 8000 }, appHandle) ∧
    moduleInit true =
      [InitEffect.createApp, InitEffect.registerRoute "/",
        InitEffect.startServer "0.0.0.0" 8000] := by
  constructor <;> rfl

/-- C5 counterexample: an OPTIONS request to "/static/app.js" has a path
other than "/", yet the automatic OPTIONS handler of the implicitly
registered static route answers it with status 200, refuting the claim
that every request to a non-root path gets a non-200 status. -/
theorem non_root_status_counterexample :
    ({ method := Method.OPTIONS, path := "/static/app.js", headers := [], body := "" } : Request).path ≠ "/" ∧
    (appHandle { method := Method.OPTIONS, path := "/static/app.js", headers := [], body := "" }).status = 200 :=
  ⟨by decide, by decide⟩

/-- C5 (amended): a request to any path other than "/" never gets the
fixed string "5 + 3 = 8" as body; and unless it is an OPTIONS request
matching the implicitly registered static route /static/<filename>
(which the framework's automatic OPTIONS handler answers with 200), its
status is not 200. -/
theorem non_root_not_ok (req : Request) (hp : req.path ≠ "/") :
    (appHandle req).body ≠ "5 + 3 = 8" ∧
    (¬ (staticRouteMatch req.path = true ∧ req.method = Method.OPTIONS) →
      (appHandle req).status ≠ 200) := by
  have h404 : flaskNotFoundBody ≠ "5 + 3 = 8" := by decide
  have h405 : flaskMethodNotAllowedBody ≠ "5 + 3 = 8" := by decide
  have hemp : "" ≠ "5 + 3 = 8" := by decide
  obtain ⟨m, p, hd, b⟩ := req
  by_cases hst : staticRouteMatch p = true
  · cases m <;>
      simp [appHandle, hp, hst, staticFiles, List.lookup, h404, h405, hemp]
  · simp [appHandle, hp, hst, h404]

/-- Witness for C5 (amended): a concrete GET request to "/nonexistent". -/
theorem non_root_not_ok_witness :
    (appHandle { method := Method.GET, path := "/nonexistent", headers := [], body := "" }).body ≠ "5 + 3 = 8" ∧
    (¬ (staticRouteMatch ({ method := Method.GET, path := "/nonexistent", headers := [], body := "" } : Request).path = true ∧
        ({ method := Method.GET, path := "/nonexistent", headers := [], body := "" } : Request).method = Method.OPTIONS) →
      (appHandle { method := Method.GET, path := "/nonexistent", headers := [], body := "" }).status ≠ 200) :=
  non_root_not_ok { method := Method.GET, path := "/nonexistent", headers := [], body := "" }
    (by decide)

/-- C6: among GET requests to "/", the response does not depend on
headers, body, or any other request content: any two such requests get
identical responses. -/
theorem get_root_independent (r₁ r₂ : Request)
    (hm₁ : r₁.method = Method.GET) (hm₂ : r₂.method = Method.GET)
    (hp₁ : r₁.path = "/") (hp₂ : r₂.path = "/") :
    appHandle r₁ = appHandle r₂ := by
  simp [appHandle, hm₁, hm₂, hp₁, hp₂]

/-- Witness for C6: two concrete GET requests to "/" with different
headers and bodies. -/
theorem get_root_independent_witness :
    appHandle { method := Method.GET, path := "/", headers := [("X-A", "1")], body := "x" } =
    appHandle { method := Method.GET, path := "/", headers := [], body := "" } :=
  get_root_independent
    { method := Method.GET, path := "/", headers := [("X-A", "1")], body := "x" }
    { method := Method.GET, path := "/", headers := [], body := "" }
    rfl rfl rfl rfl

/-- C7: invoking the handler has no side effects: the observable program
state after the call equals the state before it. -/
theorem index_no_side_effects (s : AppState) : (indexSt s).2 = s := rfl

/-- C8: the hardcoded string is arithmetically consistent — it equals
"5 + 3 = " followed by the decimal representation of 5 + 3 — so the
hardcoded dispatch is extensionally equal to one that computes the sum. -/
theorem index_refines_computed :
    index = indexComputed ∧ ∀ req : Request, appHandle req = appHandleComputed req := by
  refine ⟨by decide, fun req => ?_⟩
  unfold appHandle appHandleComputed
  have h : index = indexComputed := by decide
  rw [h]

/-- C9: the route registered with no explicit methods argument answers
GET, HEAD and OPTIONS; a HEAD request to "/" gets status 200 with an
empty body. -/
theorem default_methods_and_head (req : Request) (hm : req.method = Method.HEAD)
    (hp : req.path = "/") :
    Method.GET ∈ defaultRouteMethods ∧ Method.HEAD ∈ defaultRouteMethods ∧
    Method.OPTIONS ∈ defaultRouteMethods ∧
    (appHandle req).status = 200 ∧ (appHandle req).body = "" := by
  refine ⟨by decide, by decide, by decide, ?_, ?_⟩ <;> simp [appHandle, hm, hp]

/-- Witness for C9: a concrete HEAD request to "/". -/
theorem default_methods_and_head_witness :
    Method.GET ∈ defaultRouteMethods ∧ Method.HEAD ∈ defaultRouteMethods ∧
    Method.OPTIONS ∈ defaultRouteMethods ∧
    (appHandle { method := Method.HEAD, path := "/", headers := [], body := "" }).status = 200 ∧
    (appHandle { method := Method.HEAD, path := "/", headers := [], body := "" }).body = "" :=
  default_methods_and_head { method := Method.HEAD, path := "/", headers := [], body := "" }
    rfl rfl

/-- C10: importing the module without running it as the main entry point
starts no server; the import-time effects are exactly constructing the
app object and registering the single route. -/
theorem import_no_server :
    runIfMain false = none ∧
    moduleInit false = [InitEffect.createApp, InitEffect.registerRoute "/"] := by
  constructor <;> rfl
